import Mathlib

/-!
Shallow embedding of `src/python/xyztai.py` (the xyzt.ai API client) and
`src/python/uploadAllGZippedCSVFilesInDirectory.py` (the bulk-upload script).

HTTP I/O is modelled explicitly: each operation takes the response(s) the
server would give to the requests it issues, and returns the Python result
(`Except PyError α`, where `PyError` covers the exceptions the code can
raise) together with the ordered list of HTTP requests actually issued
before the operation returned or raised.  Response bodies are modelled as
already-parsed JSON values (`json.loads(r.data.decode(...))`).
-/

/-- A parsed JSON value, as produced by Python's `json.loads`.  Objects are
modelled as association lists with the keys of the (unique-keyed) dict. -/
inductive Json where
  | null
  | bool (b : Bool)
  | num (n : Int)
  | str (s : String)
  | arr (elems : List Json)
  | obj (fields : List (String × Json))

mutual

/-- Python `repr` of a decoded JSON value (string escaping not modelled;
no code path in this repository depends on it). -/
def Json.pyRepr : Json → String
  | .null => "None"
  | .bool b => if b then "True" else "False"
  | .num n => toString n
  | .str s => "'" ++ s ++ "'"
  | .arr xs => "[" ++ String.intercalate ", " (pyReprList xs) ++ "]"
  | .obj kvs => "\x7b" ++ String.intercalate ", " (pyReprFields kvs) ++ "\x7d"

/-- Rendering of each element of a decoded JSON array (`repr`). -/
def pyReprList : List Json → List String
  | [] => []
  | x :: xs => Json.pyRepr x :: pyReprList xs

/-- Rendering of each field of a decoded JSON object as `'key': repr(value)`. -/
def pyReprFields : List (String × Json) → List String
  | [] => []
  | (k, v) :: kvs => ("'" ++ k ++ "': " ++ Json.pyRepr v) :: pyReprFields kvs

end

/-- Python `str()` of a decoded JSON value, as used by f-string
interpolation (`f'Bearer {token}'`, `f'... {errmsg}'`).  `str()` agrees
with `repr()` except on strings, which are interpolated verbatim. -/
def Json.pyStr : Json → String
  | .str s => s
  | j => j.pyRepr

example : Json.pyStr (.str "abc") = "abc" := rfl
example : Json.pyStr (.arr [.num 1, .str "a"]) = "[1, 'a']" := rfl

/-- The exceptions the Python code in this repository can raise. -/
inductive PyError where
  | valueError (msg : String)
  | httpError (msg : String)
  | keyError (key : String)
  | nameError (name : String)
  | typeError
  | attributeError (attr : String)

/-- An HTTP response as seen by the client once decoded: the status code
and the JSON-parsed body (`json.loads(r.data.decode(encoding))` /
`response.json()`). -/
structure Response where
  status : Nat
  body : Json

/-- An outbound HTTP request, recording everything the code puts on the
wire: method, full URL, headers, optional JSON body, and the optional
multipart file field `(filename, filedata, content_type)`. -/
structure Request where
  method : String
  url : String
  headers : List (String × String)
  body : Option Json := none
  fileField : Option (String × String × String) := none

/-- Python `d[key]` on a decoded JSON value: `KeyError` when the key is
absent, `TypeError` when the value is not a dict. -/
def Json.getItem : Json → String → Except PyError Json
  | .obj kvs, key =>
    match kvs.lookup key with
    | some v => .ok v
    | none => .error (.keyError key)
  | _, _ => .error .typeError

/-- Python `d.get(key, default)` on a decoded JSON value:
`AttributeError` when the value is not a dict. -/
def Json.get (j : Json) (key : String) (dflt : Json) : Except PyError Json :=
  match j with
  | .obj kvs => .ok ((kvs.lookup key).getD dflt)
  | _ => .error (.attributeError "get")

/-- The root URL for calls to the xyzt.ai API (`_apiroot` in the source). -/
def apiroot : String := "https://api.platform-xyzt.ai/public/api"

/-- The state of an `API` instance: username, password and dataset id as
stored by `API.__init__` (the pool manager and the fixed `utf-8` encoding
carry no observable state). -/
structure API where
  uname : String
  passwd : String
  did : String

/-- Embedding of `pathlib.PurePath.suffix` of a file name (its final component): the
substring from the last `'.'`, provided that dot is neither the first nor
the last character; otherwise the empty string. -/
def pathSuffix (name : String) : String :=
  let cs := name.data
  match cs.reverse.indexOf? '.' with
  | none => ""
  | some k =>
    let i := cs.length - 1 - k
    if 0 < i ∧ i < cs.length - 1 then String.mk (cs.drop i) else ""

example : pathSuffix "a.csv" = ".csv" := rfl
example : pathSuffix "data.tar.gz" = ".gz" := rfl
example : pathSuffix "a.CSV" = ".CSV" := rfl
example : pathSuffix "noext" = "" := rfl
example : pathSuffix ".bashrc" = "" := rfl
example : pathSuffix "a." = "" := rfl

/-- A file handed to an upload operation: `name` is the final path
component (what `file.name` returns), `content` the bytes read by
`file.open(mode='rb').read()`. -/
structure PyFile where
  name : String
  content : String

/-- Embedding of `API._get_content_type`: `.csv` maps to `text/csv`, `.gz` to
`application/x-gzip`, anything else raises
`ValueError('Unsupported file type')`. -/
def get_content_type (file : PyFile) : Except PyError String :=
  let rv : Option String :=
    if pathSuffix file.name = ".csv" then some "text/csv"
    else if pathSuffix file.name = ".gz" then some "application/x-gzip"
    else none
  match rv with
  | none => .error (.valueError "Unsupported file type")
  | some s => .ok s

/-- The POST to `_apiroot + '/tokens'` issued by `API._get_post_headers`:
Accept/Content-Type headers and the JSON body
`{'userName': uname, 'password': passwd}`. -/
def tokenRequest (api : API) : Request :=
  { method := "POST"
    url := apiroot ++ "/tokens"
    headers := [("Accept", "application/json"), ("Content-Type", "application/json")]
    body := some (.obj [("userName", .str api.uname), ("password", .str api.passwd)]) }

/-- Embedding of `API._get_post_headers`, given the response of the token endpoint:
issues the token POST; on a non-2xx status reads the body's `message`
field and raises `HTTPError(f'Request for auth token failed with status
{r.status}: {errmsg}')`; on 2xx returns the Authorization/Accept header
dict built from the body's `jwtToken` field. -/
def get_post_headers (api : API) (tokenResp : Response) :
    Except PyError (List (String × String)) × List Request :=
  let trace := [tokenRequest api]
  if tokenResp.status < 200 ∨ 300 ≤ tokenResp.status then
    match tokenResp.body.getItem "message" with
    | .error e => (.error e, trace)
    | .ok errmsg =>
      (.error (.httpError ("Request for auth token failed with status "
        ++ toString tokenResp.status ++ ": " ++ errmsg.pyStr)), trace)
  else
    match tokenResp.body.getItem "jwtToken" with
    | .error e => (.error e, trace)
    | .ok token =>
      (.ok [("Authorization", "Bearer " ++ token.pyStr),
            ("Accept", "application/json")], trace)

/-- Python truthiness of the optional `batch : str = None` parameter:
`None` and `''` are falsy, any other string truthy. -/
def truthy : Option String → Bool
  | none => false
  | some s => !s.isEmpty

/-- Embedding of `batch.replace(' ', '_')`: with a single-character pattern and
replacement, Python `str.replace` is character-wise substitution. -/
def normalizeBatch (b : String) : String :=
  String.mk (b.data.map fun c => if c = ' ' then '_' else c)

example : normalizeBatch "Q1 2024" = "Q1_2024" := rfl

/-- Embedding of `API._upload(datatype, file, batch)`, given the token-endpoint
response and the upload-endpoint response.  In source order: reads the
file, calls `_get_post_headers` (which issues the token request), builds
the URL (appending `?batch=` with spaces replaced by underscores when
`batch` is truthy), then issues the multipart POST — whose `fields`
argument evaluates `_get_content_type(file)` first, so an unsupported
extension raises `ValueError` after the token request but before the
upload request.  A non-2xx upload response raises `HTTPError(f'Upload of
{datatype} file failed with status {r.status}: {errmsg}')`. -/
def upload (api : API) (datatype : String) (file : PyFile) (batch : Option String)
    (tokenResp uploadResp : Response) : Except PyError Unit × List Request :=
  let filedata := file.content
  match get_post_headers api tokenResp with
  | (.error e, tr) => (.error e, tr)
  | (.ok headers, tr) =>
    let url0 := apiroot ++ "/datasets/" ++ api.did ++ "/" ++ datatype ++ "/upload"
    let url := if truthy batch then
        url0 ++ "?batch=" ++ normalizeBatch (batch.getD "")
      else url0
    match get_content_type file with
    | .error e => (.error e, tr)
    | .ok ctype =>
      let req : Request :=
        { method := "POST", url := url, headers := headers
          fileField := some (file.name, filedata, ctype) }
      let tr := tr ++ [req]
      if uploadResp.status < 200 ∨ 300 ≤ uploadResp.status then
        match uploadResp.body.getItem "message" with
        | .error e => (.error e, tr)
        | .ok errmsg =>
          (.error (.httpError ("Upload of " ++ datatype ++ " file failed with status "
            ++ toString uploadResp.status ++ ": " ++ errmsg.pyStr)), tr)
      else (.ok (), tr)

/-- Embedding of `API.upload_records(file, batch=None)`, which is `_upload('data', file, batch)`. -/
def upload_records (api : API) (file : PyFile) (batch : Option String)
    (tokenResp uploadResp : Response) : Except PyError Unit × List Request :=
  upload api "data" file batch tokenResp uploadResp

/-- Embedding of `API.upload_metadata(file, batch=None)`, which is `_upload('metadata', file, batch)`. -/
def upload_metadata (api : API) (file : PyFile) (batch : Option String)
    (tokenResp uploadResp : Response) : Except PyError Unit × List Request :=
  upload api "metadata" file batch tokenResp uploadResp

/-- Embedding of `API.delete_batch(batch)`: a falsy batch raises
`ValueError('batch cannot be null')` before anything else; otherwise the
URL `/datasets/{did}/batches/` + normalized label is built, the token
request is issued via `_get_post_headers`, the DELETE is issued, and a
non-2xx status raises `HTTPError(f'Deletion of batch "{batch}" file
failed with status {r.status}: {errmsg}')` (with the original,
un-normalized label in the message). -/
def delete_batch (api : API) (batch : Option String)
    (tokenResp delResp : Response) : Except PyError Unit × List Request :=
  if truthy batch = false then
    (.error (.valueError "batch cannot be null"), [])
  else
    let url := apiroot ++ "/datasets/" ++ api.did ++ "/batches/"
      ++ normalizeBatch (batch.getD "")
    match get_post_headers api tokenResp with
    | (.error e, tr) => (.error e, tr)
    | (.ok headers, tr) =>
      let req : Request := { method := "DELETE", url := url, headers := headers }
      let tr := tr ++ [req]
      if delResp.status < 200 ∨ 300 ≤ delResp.status then
        match delResp.body.getItem "message" with
        | .error e => (.error e, tr)
        | .ok errmsg =>
          (.error (.httpError ("Deletion of batch \"" ++ batch.getD ""
            ++ "\" file failed with status " ++ toString delResp.status
            ++ ": " ++ errmsg.pyStr)), tr)
      else (.ok (), tr)

/-- Embedding of `API.retrieve_datasets()`: issues the token request via
`_get_post_headers`, then a GET to `/datasets`.  On 2xx returns the
decoded JSON body.  On non-2xx the code first reads the body's `message`
field and then evaluates the f-string
`f'Retrieval of data sets Deletion of batch "{batch}" file failed with
status {r.status}: {errmsg}'`, whose placeholder `batch` is an undefined
name in that scope, so the operation raises `NameError('batch')` instead
of ever constructing the `HTTPError`. -/
def retrieve_datasets (api : API) (tokenResp getResp : Response) :
    Except PyError Json × List Request :=
  match get_post_headers api tokenResp with
  | (.error e, tr) => (.error e, tr)
  | (.ok headers, tr) =>
    let req : Request := { method := "GET", url := apiroot ++ "/datasets", headers := headers }
    let tr := tr ++ [req]
    if getResp.status < 200 ∨ 300 ≤ getResp.status then
      match getResp.body.getItem "message" with
      | .error e => (.error e, tr)
      | .ok _errmsg => (.error (.nameError "batch"), tr)
    else (.ok getResp.body, tr)

/-- The hardcoded configuration constants of
`uploadAllGZippedCSVFilesInDirectory.py`: base URL, API user name,
password and data-set key (the folder only determines which files the
walk yields, which is the script's input here). -/
structure Script where
  url : String
  user : String
  password : String
  dataKey : String

/-- A file yielded by `os.walk`: `name` is the entry from the `files`
list (its basename — `os.path.basename(os.path.join(root, file)) = file`),
`content` the bytes `open(file_path, 'rb')` would read. -/
structure WalkFile where
  name : String
  content : String

/-- The POST to `{url}/tokens` issued by the script's `request_token`:
`requests.post(..., json=payload)` with the userName/password payload. -/
def script_tokenRequest (cfg : Script) : Request :=
  { method := "POST"
    url := cfg.url ++ "/tokens"
    headers := []
    body := some (.obj [("userName", .str cfg.user), ("password", .str cfg.password)]) }

/-- The script's `request_token()`, given the token-endpoint response:
on status exactly 200 it returns `body.get("jwtToken", "")` — the empty
string when the field is absent, and Python `None` (modelled as `none`,
the same value the caller's `is not None` guard tests) when the field is
present with JSON value `null`, since decoded `null` is `None` itself and
`dict.get` returns the stored value, not the default; on any other status
it returns `None`.  The status check is `code == 200`, not a 2xx range
check. -/
def request_token (tokenResp : Response) : Except PyError (Option Json) :=
  if tokenResp.status == 200 then
    match tokenResp.body.get "jwtToken" (.str "") with
    | .error e => .error e
    | .ok .null => .ok none
    | .ok jwtToken => .ok (some jwtToken)
  else
    .ok none

/-- The upload POST issued by the script's `upload_file(jwt_token,
file_path)`: multipart field `(basename, filedata, 'application/x-gzip')`
and the single header `Authorization: Bearer {jwt_token}`. -/
def script_uploadRequest (cfg : Script) (f : WalkFile) (tok : Json) : Request :=
  { method := "POST"
    url := cfg.url ++ "/datasets/" ++ cfg.dataKey ++ "/data/upload"
    headers := [("Authorization", "Bearer " ++ tok.pyStr)]
    fileField := some (f.name, f.content, "application/x-gzip") }

/-- Embedding of Python `str.endswith`: suffix test on the characters. -/
def pyEndsWith (s suf : String) : Bool :=
  suf.data.isSuffixOf s.data

/-- One iteration of the script's walk loop for a single directory entry:
a file whose name does not end in `.csv.gz` is ignored; otherwise a token
is requested, and only when `request_token` returned non-`None` is the
upload issued.  The upload response's status is only printed, so it does
not affect the result or the trace. -/
def process_file (cfg : Script) (f : WalkFile) (tokenResp : Response) :
    Except PyError Unit × List Request :=
  if pyEndsWith f.name ".csv.gz" then
    match request_token tokenResp with
    | .error e => (.error e, [script_tokenRequest cfg])
    | .ok none => (.ok (), [script_tokenRequest cfg])
    | .ok (some tok) =>
      (.ok (), [script_tokenRequest cfg, script_uploadRequest cfg f tok])
  else (.ok (), [])

/-- The script's walk loop over the files `os.walk` yields (each paired
with the response its token request would get): strictly sequential;
an uncaught exception aborts the remainder of the run. -/
def bulk_upload (cfg : Script) :
    List (WalkFile × Response) → Except PyError Unit × List Request
  | [] => (.ok (), [])
  | (f, tokenResp) :: rest =>
    match process_file cfg f tokenResp with
    | (.error e, tr) => (.error e, tr)
    | (.ok (), tr) =>
      match bulk_upload cfg rest with
      | (res, tr2) => (res, tr ++ tr2)

/-- Total-function form of `body.get("jwtToken", "")`, for describing the
expected trace of the walk loop (`Json.str ""` when the body is not an
object, matching `dict.get`'s behaviour on the bodies the loop accepts). -/
def Json.lookupD (j : Json) (key : String) (dflt : Json) : Json :=
  match j with
  | .obj kvs => (kvs.lookup key).getD dflt
  | _ => dflt

/-- Whether a decoded JSON value is an object (a Python dict). -/
def Json.isObj : Json → Bool
  | .obj _ => true
  | _ => false

/-- Whether a decoded JSON value is `null` (Python `None`). -/
def Json.isNull : Json → Bool
  | .null => true
  | _ => false

/-- Concrete fixture: an `API` instance targeting dataset `ds1`. -/
def apiEx : API := ⟨"apiuser-uuid@company.com", "api-password", "ds1"⟩

/-- Concrete fixture: a 200 token response with `jwtToken` `"abc"`. -/
def tokOkR : Response := ⟨200, .obj [("jwtToken", .str "abc")]⟩

/-- Concrete fixture: a 401 token response with message `bad credentials`. -/
def tok401R : Response := ⟨401, .obj [("message", .str "bad credentials")]⟩

/-- Concrete fixture: a generic 200 response with an empty JSON object body. -/
def okR : Response := ⟨200, .obj []⟩

/-- Concrete fixture: a 500 response to GET `/datasets` with a `message`
field. -/
def badGetR : Response := ⟨500, .obj [("message", .str "boom")]⟩

/-- Concrete fixture: a 200 `/datasets` response whose body is a JSON
array of dataset records. -/
def datasetsR : Response :=
  ⟨200, .arr [.obj [("id", .str "ds1"), ("name", .str "n"),
    ("description", .str "d"), ("batches", .arr [.str "b1"])]]⟩

/-- The expected wire trace of the walk loop: each file whose name ends
with `.csv.gz` gets one fresh token request, followed by exactly one
upload when that token request returned status 200 with a non-null
`jwtToken` value (a 200 body whose `jwtToken` is JSON `null` gives the
caller Python `None`, so the upload is skipped); every other file
produces no requests. -/
def expectedBulkTrace (cfg : Script) (inputs : List (WalkFile × Response)) : List Request :=
  inputs.flatMap fun p =>
    if pyEndsWith p.1.name ".csv.gz" then
      script_tokenRequest cfg ::
        (if p.2.status == 200 && !(p.2.body.lookupD "jwtToken" (.str "")).isNull then
          [script_uploadRequest cfg p.1 (p.2.body.lookupD "jwtToken" (.str ""))]
        else [])
    else []

/-- Concrete fixture: a script configuration. -/
def scriptEx : Script := ⟨"https://api.platform-xyzt.ai/public/api", "u", "p", "k"⟩

/-- Concrete fixture: a 200 token response whose `jwtToken` field is
JSON `null` (Python `None`). -/
def nullTokR : Response := ⟨200, .obj [("jwtToken", .null)]⟩

/-- Concrete fixture: a walk over four matching and two non-matching
files; the token request of the second matching file fails with 401, and
that of the fourth returns 200 with a `null` `jwtToken`. -/
def walkEx : List (WalkFile × Response) :=
  [(⟨"a.csv.gz", "A"⟩, tokOkR),
   (⟨"notes.txt", "N"⟩, okR),
   (⟨"b.csv.gz", "B"⟩, tok401R),
   (⟨"c.csv", "C"⟩, okR),
   (⟨"d.csv.gz", "D"⟩, tokOkR),
   (⟨"e.csv.gz", "E"⟩, nullTokR)]

/-- Concrete fixture: a 200 token response whose body lacks `jwtToken`. -/
def noTokR : Response := ⟨200, .obj [("other", .str "x")]⟩

/-- Substituting spaces by underscores character-wise is idempotent. -/
theorem spaceToUnderscore_idem (l : List Char) :
    ((l.map fun c => if c = ' ' then '_' else c).map fun c => if c = ' ' then '_' else c)
      = l.map fun c => if c = ' ' then '_' else c := by
  induction l with
  | nil => rfl
  | cons c l ih =>
    by_cases h : c = ' ' <;> simp [h, ih]

/-- C8: batch-label normalization — the `batch.replace(' ', '_')` applied
by both `upload` (`API._upload`) and `delete_batch` before the label is
placed in the URL — is idempotent, and `"my batch"` and `"my_batch"` both
normalize to `"my_batch"`. -/
theorem batch_normalization_idempotent :
    (∀ b, normalizeBatch (normalizeBatch b) = normalizeBatch b) ∧
    normalizeBatch "my batch" = "my_batch" ∧
    normalizeBatch "my_batch" = "my_batch" :=
  ⟨fun b => congrArg String.mk (spaceToUnderscore_idem b.data), rfl, rfl⟩

/-- C10: content-type inference looks only at the file name's final
suffix and is case-sensitive: any name whose `suffix` is exactly `.gz`
(including `data.tar.gz`) gets `application/x-gzip` and is accepted,
the inferred type depends only on the suffix, and the uppercase variants
`.CSV` and `.GZ` are rejected with `ValueError('Unsupported file type')`. -/
theorem content_type_final_suffix_case_sensitive :
    (∀ name content : String, pathSuffix name = ".gz" →
        get_content_type ⟨name, content⟩ = .ok "application/x-gzip") ∧
    (∀ f g : PyFile, pathSuffix f.name = pathSuffix g.name →
        get_content_type f = get_content_type g) ∧
    pathSuffix "data.tar.gz" = ".gz" ∧
    get_content_type ⟨"data.tar.gz", ""⟩ = .ok "application/x-gzip" ∧
    get_content_type ⟨"a.CSV", ""⟩ = .error (.valueError "Unsupported file type") ∧
    get_content_type ⟨"a.GZ", ""⟩ = .error (.valueError "Unsupported file type") := by
  refine ⟨?_, ?_, rfl, rfl, rfl, rfl⟩
  · intro name content h
    simp [get_content_type, h]
  · intro f g h
    simp [get_content_type, h]

/-- C10 witness: `data.tar.gz` has final suffix `.gz` and is assigned
`application/x-gzip`. -/
theorem content_type_final_suffix_witness :
    get_content_type ⟨"data.tar.gz", "payload"⟩ = .ok "application/x-gzip" :=
  content_type_final_suffix_case_sensitive.1 "data.tar.gz" "payload" rfl

/-- C1 counterexample: with a fully successful token endpoint,
`upload_records` on `a.txt` (an unsupported extension) does issue a
network call — the wire trace is not empty (it contains the token
request), contradicting "fails ... before any network call is made — in
particular, no token request ... is issued". -/
theorem upload_txt_issues_token_request :
    (upload_records apiEx ⟨"a.txt", "x"⟩ none tokOkR okR).2 ≠ [] := by
  have h : (upload_records apiEx ⟨"a.txt", "x"⟩ none tokOkR okR).2
      = [tokenRequest apiEx] := rfl
  rw [h]
  exact List.cons_ne_nil _ _

/-- C1 (amended): for a file whose final suffix is neither `.csv` nor
`.gz`, `upload_records` and `upload_metadata` fail with
`ValueError('Unsupported file type')` before the upload request is
issued — but after the token request, which is always issued first
(given a successful token response, the wire trace is exactly the token
request); `.csv` resolves to content type `text/csv` and `.gz` to
`application/x-gzip`. -/
theorem upload_unsupported_extension_valueerror
    (api : API) (file : PyFile) (batch : Option String)
    (tokenResp uploadResp : Response) (tok : Json)
    (h2xx : 200 ≤ tokenResp.status ∧ tokenResp.status < 300)
    (htok : tokenResp.body.getItem "jwtToken" = .ok tok)
    (hcsv : pathSuffix file.name ≠ ".csv") (hgz : pathSuffix file.name ≠ ".gz") :
    upload_records api file batch tokenResp uploadResp
        = (.error (.valueError "Unsupported file type"), [tokenRequest api]) ∧
    upload_metadata api file batch tokenResp uploadResp
        = (.error (.valueError "Unsupported file type"), [tokenRequest api]) ∧
    (∀ f : PyFile, pathSuffix f.name = ".csv" → get_content_type f = .ok "text/csv") ∧
    (∀ f : PyFile, pathSuffix f.name = ".gz" →
        get_content_type f = .ok "application/x-gzip") := by
  have hn : ¬ (tokenResp.status < 200 ∨ 300 ≤ tokenResp.status) := by omega
  refine ⟨?_, ?_, ?_, ?_⟩
  · simp [upload_records, upload, get_post_headers, hn, htok, get_content_type, hcsv, hgz]
  · simp [upload_metadata, upload, get_post_headers, hn, htok, get_content_type, hcsv, hgz]
  · intro f h
    simp [get_content_type, h]
  · intro f h
    simp [get_content_type, h]

/-- C1 witness: uploading `a.txt` with a successful token endpoint fails
with the `ValueError` and the wire trace is exactly the token request. -/
theorem upload_unsupported_extension_witness :
    upload_records apiEx ⟨"a.txt", "x"⟩ none tokOkR okR
      = (.error (.valueError "Unsupported file type"), [tokenRequest apiEx]) :=
  (upload_unsupported_extension_valueerror apiEx ⟨"a.txt", "x"⟩ none tokOkR okR
    (.str "abc") (by decide) rfl (by decide) (by decide)).1

/-- C2: evaluating `retrieve_datasets` at a non-2xx `/datasets` response
(500 with message `boom`, token endpoint succeeding).  The code raises
`NameError('batch')` — the error f-string on the retrieval path
references the undefined name `batch` — and never constructs the
`HTTPError` carrying status and message that the claim describes. -/
theorem retrieve_datasets_500_raises_nameerror :
    (retrieve_datasets apiEx tokOkR badGetR).1 = .error (.nameError "batch") := rfl

/-- C3: on a 2xx token response with string field `jwtToken`,
`_get_post_headers` returns the header dict with `Authorization:
Bearer <token>` built verbatim from the token, and the subsequent request
of the operation (`upload_records` / `retrieve_datasets`) carries exactly
those headers; on a non-2xx token response the operation fails with the
`HTTPError` message carrying the status code and the body's `message`
field, and no request beyond the token request is issued. -/
theorem bearer_token_attached_or_auth_error (api : API) (tokenResp : Response) :
    (∀ tok : String, 200 ≤ tokenResp.status → tokenResp.status < 300 →
      tokenResp.body.getItem "jwtToken" = .ok (.str tok) →
      get_post_headers api tokenResp
        = (.ok [("Authorization", "Bearer " ++ tok), ("Accept", "application/json")],
           [tokenRequest api]) ∧
      (∀ (file : PyFile) (ct : String) (batch : Option String) (uploadResp : Response),
        get_content_type file = .ok ct →
        ∃ req : Request,
          (upload_records api file batch tokenResp uploadResp).2 = [tokenRequest api, req] ∧
          req.headers = [("Authorization", "Bearer " ++ tok), ("Accept", "application/json")]) ∧
      (∀ getResp : Response,
        ∃ req : Request,
          (retrieve_datasets api tokenResp getResp).2 = [tokenRequest api, req] ∧
          req.headers = [("Authorization", "Bearer " ++ tok), ("Accept", "application/json")])) ∧
    (∀ m : String, tokenResp.status < 200 ∨ 300 ≤ tokenResp.status →
      tokenResp.body.getItem "message" = .ok (.str m) →
      get_post_headers api tokenResp
        = (.error (.httpError ("Request for auth token failed with status "
            ++ toString tokenResp.status ++ ": " ++ m)), [tokenRequest api]) ∧
      (∀ (file : PyFile) (batch : Option String) (uploadResp : Response),
        upload_records api file batch tokenResp uploadResp
          = (.error (.httpError ("Request for auth token failed with status "
              ++ toString tokenResp.status ++ ": " ++ m)), [tokenRequest api]))) := by
  constructor
  · intro tok h1 h2 htok
    have hn : ¬ (tokenResp.status < 200 ∨ 300 ≤ tokenResp.status) := by omega
    have hgph : get_post_headers api tokenResp
        = (.ok [("Authorization", "Bearer " ++ tok), ("Accept", "application/json")],
           [tokenRequest api]) := by
      simp [get_post_headers, hn, htok, Json.pyStr]
    refine ⟨hgph, ?_, ?_⟩
    · intro file ct batch uploadResp hct
      refine ⟨{ method := "POST"
                url := if truthy batch then
                    apiroot ++ "/datasets/" ++ api.did ++ "/" ++ "data" ++ "/upload"
                      ++ "?batch=" ++ normalizeBatch (batch.getD "")
                  else apiroot ++ "/datasets/" ++ api.did ++ "/" ++ "data" ++ "/upload"
                headers := [("Authorization", "Bearer " ++ tok), ("Accept", "application/json")]
                fileField := some (file.name, file.content, ct) }, ?_, rfl⟩
      simp only [upload_records, upload, hgph, hct]
      split <;> (try split) <;> rfl
    · intro getResp
      refine ⟨{ method := "GET", url := apiroot ++ "/datasets"
                headers := [("Authorization", "Bearer " ++ tok),
                  ("Accept", "application/json")] }, ?_, rfl⟩
      simp only [retrieve_datasets, hgph]
      split <;> (try split) <;> rfl
  · intro m hout hmsg
    have hgph : get_post_headers api tokenResp
        = (.error (.httpError ("Request for auth token failed with status "
            ++ toString tokenResp.status ++ ": " ++ m)), [tokenRequest api]) := by
      simp [get_post_headers, hout, hmsg, Json.pyStr]
    exact ⟨hgph, fun file batch uploadResp => by simp [upload_records, upload, hgph]⟩

/-- C3 witness: on the 200/`jwtToken: "abc"` fixture the header dict
carries `Bearer abc` verbatim; on the 401/`bad credentials` fixture,
`upload_records` fails with the `HTTPError` carrying 401 and the server
message, with only the token request on the wire. -/
theorem bearer_token_attached_witness :
    get_post_headers apiEx tokOkR
      = (.ok [("Authorization", "Bearer abc"), ("Accept", "application/json")],
         [tokenRequest apiEx]) ∧
    upload_records apiEx ⟨"a.csv", "x"⟩ none tok401R okR
      = (.error (.httpError "Request for auth token failed with status 401: bad credentials"),
         [tokenRequest apiEx]) := by
  constructor
  · exact ((bearer_token_attached_or_auth_error apiEx tokOkR).1 "abc"
      (by decide) (by decide) rfl).1
  · exact (((bearer_token_attached_or_auth_error apiEx tok401R).2 "bad credentials"
      (by decide) rfl).2 ⟨"a.csv", "x"⟩ none okR)

/-- C4: for a non-empty batch label, with the token endpoint succeeding
and a supported file, the upload request of `upload_records` is a POST to
`<apiroot>/datasets/{did}/data/upload?batch=<label with spaces replaced
by underscores>`, and a 2xx upload response makes the call return
normally. -/
theorem upload_batch_url (api : API) (file : PyFile) (b : String)
    (tokenResp uploadResp : Response) (tok ct : String)
    (hb : b ≠ "")
    (h2xx : 200 ≤ tokenResp.status ∧ tokenResp.status < 300)
    (htok : tokenResp.body.getItem "jwtToken" = .ok (.str tok))
    (hct : get_content_type file = .ok ct)
    (hu : 200 ≤ uploadResp.status ∧ uploadResp.status < 300) :
    upload_records api file (some b) tokenResp uploadResp
      = (.ok (),
         [tokenRequest api,
          { method := "POST"
            url := apiroot ++ "/datasets/" ++ api.did ++ "/" ++ "data" ++ "/upload"
              ++ "?batch=" ++ normalizeBatch b
            headers := [("Authorization", "Bearer " ++ tok), ("Accept", "application/json")]
            fileField := some (file.name, file.content, ct) }]) := by
  have hn : ¬ (tokenResp.status < 200 ∨ 300 ≤ tokenResp.status) := by omega
  have hun : ¬ (uploadResp.status < 200 ∨ 300 ≤ uploadResp.status) := by omega
  have hbe : b.isEmpty = false := by
    cases h : b.isEmpty
    · rfl
    · exact absurd ((String.isEmpty_iff b).mp h) hb
  have htr : truthy (some b) = true := by
    simp [truthy, hbe]
  simp [upload_records, upload, get_post_headers, hn, htok, hct, htr, hun, Json.pyStr]

/-- C4 witness: `upload_records(file="a.csv", batch="Q1 2024")` against
dataset `ds1` with the token call succeeding issues a POST whose URL ends
in `/datasets/ds1/data/upload?batch=Q1_2024` and returns normally on a
2xx response. -/
theorem upload_batch_url_witness :
    upload_records apiEx ⟨"a.csv", "x"⟩ (some "Q1 2024") tokOkR okR
      = (.ok (),
         [tokenRequest apiEx,
          { method := "POST"
            url := "https://api.platform-xyzt.ai/public/api/datasets/ds1/data/upload?batch=Q1_2024"
            headers := [("Authorization", "Bearer abc"), ("Accept", "application/json")]
            fileField := some ("a.csv", "x", "text/csv") }]) :=
  upload_batch_url apiEx ⟨"a.csv", "x"⟩ "Q1 2024" tokOkR okR "abc" "text/csv"
    (by decide) (by decide) rfl rfl (by decide)

/-- C5: `delete_batch` with `None` or the empty string fails with
`ValueError('batch cannot be null')` and an empty wire trace (no token
request, no DELETE); with a non-empty label and a successful token
response, the wire trace is the token request followed by a DELETE to
`<apiroot>/datasets/{did}/batches/<label with spaces replaced by
underscores>`. -/
theorem delete_batch_guard (api : API) (tokenResp delResp : Response) :
    delete_batch api none tokenResp delResp
      = (.error (.valueError "batch cannot be null"), []) ∧
    delete_batch api (some "") tokenResp delResp
      = (.error (.valueError "batch cannot be null"), []) ∧
    (∀ b tok : String, b ≠ "" →
      200 ≤ tokenResp.status → tokenResp.status < 300 →
      tokenResp.body.getItem "jwtToken" = .ok (.str tok) →
      (delete_batch api (some b) tokenResp delResp).2
        = [tokenRequest api,
           { method := "DELETE"
             url := apiroot ++ "/datasets/" ++ api.did ++ "/batches/" ++ normalizeBatch b
             headers := [("Authorization", "Bearer " ++ tok),
               ("Accept", "application/json")] }]) := by
  refine ⟨rfl, rfl, ?_⟩
  intro b tok hb h1 h2 htok
  have hn : ¬ (tokenResp.status < 200 ∨ 300 ≤ tokenResp.status) := by omega
  have hbe : b.isEmpty = false := by
    cases h : b.isEmpty
    · rfl
    · exact absurd ((String.isEmpty_iff b).mp h) hb
  simp only [delete_batch, truthy, hbe, Bool.not_false, Bool.true_eq_false,
    get_post_headers, hn, if_false, htok, Option.getD]
  split <;> (try split) <;> simp [Json.pyStr]

/-- C5 witness: `delete_batch(None)` and `delete_batch("")` fail with the
`ValueError` and an empty trace; `delete_batch("my batch")` with a
successful token response issues the token request and then a DELETE to
`/datasets/ds1/batches/my_batch`. -/
theorem delete_batch_guard_witness :
    delete_batch apiEx none tokOkR okR
      = (.error (.valueError "batch cannot be null"), []) ∧
    delete_batch apiEx (some "") tokOkR okR
      = (.error (.valueError "batch cannot be null"), []) ∧
    (delete_batch apiEx (some "my batch") tokOkR okR).2
      = [tokenRequest apiEx,
         { method := "DELETE"
           url := "https://api.platform-xyzt.ai/public/api/datasets/ds1/batches/my_batch"
           headers := [("Authorization", "Bearer abc"), ("Accept", "application/json")] }] :=
  ⟨(delete_batch_guard apiEx tokOkR okR).1,
   (delete_batch_guard apiEx tokOkR okR).2.1,
   (delete_batch_guard apiEx tokOkR okR).2.2 "my batch" "abc"
     (by decide) (by decide) (by decide) rfl⟩

/-- C6: when the GET `/datasets` request returns 2xx (token endpoint
succeeding), `retrieve_datasets` returns the decoded JSON body exactly
as parsed — no filtering, reordering or validation. -/
theorem retrieve_datasets_passthrough (api : API) (tokenResp getResp : Response) (tok : Json)
    (h2xx : 200 ≤ tokenResp.status ∧ tokenResp.status < 300)
    (htok : tokenResp.body.getItem "jwtToken" = .ok tok)
    (hg : 200 ≤ getResp.status ∧ getResp.status < 300) :
    (retrieve_datasets api tokenResp getResp).1 = .ok getResp.body := by
  have hn : ¬ (tokenResp.status < 200 ∨ 300 ≤ tokenResp.status) := by omega
  have hgn : ¬ (getResp.status < 200 ∨ 300 ≤ getResp.status) := by omega
  simp [retrieve_datasets, get_post_headers, hn, htok, hgn]

/-- C6 witness: on a concrete 200 response carrying a dataset array,
`retrieve_datasets` returns exactly that array. -/
theorem retrieve_datasets_passthrough_witness :
    (retrieve_datasets apiEx tokOkR datasetsR).1 = .ok datasetsR.body :=
  retrieve_datasets_passthrough apiEx tokOkR datasetsR (.str "abc")
    (by decide) rfl (by decide)

/-- One walk-loop iteration never raises when 200-status token bodies are
JSON objects, and its trace is the per-file expected trace: the upload
follows the token request exactly when the status was 200 and the
`jwtToken` value was not JSON `null`. -/
theorem process_file_trace (cfg : Script) (f : WalkFile) (r : Response)
    (hobj : r.status = 200 → r.body.isObj = true) :
    process_file cfg f r = (.ok (),
      if pyEndsWith f.name ".csv.gz" then
        script_tokenRequest cfg ::
          (if r.status == 200 && !(r.body.lookupD "jwtToken" (.str "")).isNull then
            [script_uploadRequest cfg f (r.body.lookupD "jwtToken" (.str ""))]
          else [])
      else []) := by
  by_cases hm : pyEndsWith f.name ".csv.gz"
  · by_cases hs : r.status = 200
    · have hob := hobj hs
      obtain ⟨kvs, hb⟩ : ∃ kvs, r.body = Json.obj kvs := by
        cases hbody : r.body <;> simp [Json.isObj, hbody] at hob <;> exact ⟨_, rfl⟩
      cases hv : (kvs.lookup "jwtToken").getD (.str "") <;>
        simp [process_file, request_token, hm, hs, hb, hv, Json.get, Json.lookupD,
          Json.isNull]
    · have hsf : (r.status == 200) = false := by simp [hs]
      simp [process_file, request_token, hm, hsf]
  · simp [process_file, hm]

/-- C7 counterexample: a matching file whose token request returns
status 200 with body `\x7b"jwtToken": null\x7d` is not uploaded — the run's wire
trace is the token request alone (`body.get` hands the caller Python
`None`, failing the `is not None` guard), refuting "every matching file
is uploaded" together with "a file is skipped [only] when its token
request has non-200 status". -/
theorem bulk_upload_null_token_skips :
    nullTokR.status = 200 ∧
    (bulk_upload scriptEx [(⟨"e.csv.gz", "E"⟩, nullTokR)]).2
      = [script_tokenRequest scriptEx] ∧
    script_uploadRequest scriptEx ⟨"e.csv.gz", "E"⟩ .null
      ∉ (bulk_upload scriptEx [(⟨"e.csv.gz", "E"⟩, nullTokR)]).2 := by
  refine ⟨rfl, rfl, ?_⟩
  intro hmem
  rw [show (bulk_upload scriptEx [(⟨"e.csv.gz", "E"⟩, nullTokR)]).2
      = [script_tokenRequest scriptEx] from rfl] at hmem
  have h := List.mem_singleton.mp hmem
  have h2 := congrArg Request.fileField h
  simp [script_uploadRequest, script_tokenRequest] at h2

/-- C7 (amended): over any walk whose 200-status token responses carry
JSON-object bodies, the bulk-upload script completes without an
exception and its wire trace is exactly: for each file ending in
`.csv.gz`, in walk order, one fresh token request followed by that
file's upload when the token request returned 200 with a non-null
`jwtToken` value (a non-200 token response — and likewise a 200 response
whose `jwtToken` is JSON `null`, which `body.get` returns as Python
`None` — skips the file's upload and processing continues); files not
ending in `.csv.gz` produce no requests at all. -/
theorem bulk_upload_exactly_matching (cfg : Script) (inputs : List (WalkFile × Response))
    (hobj : ∀ p ∈ inputs, p.2.status = 200 → p.2.body.isObj = true) :
    bulk_upload cfg inputs = (.ok (), expectedBulkTrace cfg inputs) := by
  induction inputs with
  | nil => rfl
  | cons p rest ih =>
    obtain ⟨f, r⟩ := p
    have h1 := process_file_trace cfg f r (hobj ⟨f, r⟩ (List.mem_cons_self _ _))
    have h2 := ih fun q hq => hobj q (List.mem_cons_of_mem _ hq)
    simp [bulk_upload, h1, h2, expectedBulkTrace]

/-- C7 witness: on the six-file fixture (four matching, two
non-matching; the second matching file's token request fails with 401
and the fourth's returns 200 with a null `jwtToken`), the trace is
token+upload for `a.csv.gz`, token only for `b.csv.gz`, token+upload for
`d.csv.gz`, token only for `e.csv.gz`, and nothing for the non-matching
files. -/
theorem bulk_upload_exactly_matching_witness :
    bulk_upload scriptEx walkEx = (.ok (),
      [script_tokenRequest scriptEx,
       script_uploadRequest scriptEx ⟨"a.csv.gz", "A"⟩ (.str "abc"),
       script_tokenRequest scriptEx,
       script_tokenRequest scriptEx,
       script_uploadRequest scriptEx ⟨"d.csv.gz", "D"⟩ (.str "abc"),
       script_tokenRequest scriptEx]) := by
  have h := bulk_upload_exactly_matching scriptEx walkEx (by
    intro p hp hs
    fin_cases hp <;> rfl)
  rw [h]
  rfl

/-- C9 counterexample: a token response with status 200 whose `jwtToken`
field is JSON `null` makes the script's `request_token` return `None`,
and the upload of a matching file is skipped (its trace is the token
request alone) — refuting "a file's upload is skipped only when the
token request's status is not 200". -/
theorem request_token_null_skips :
    nullTokR.status = 200 ∧
    request_token nullTokR = .ok none ∧
    (process_file scriptEx ⟨"f.csv.gz", "F"⟩ nullTokR).2
      = [script_tokenRequest scriptEx] :=
  ⟨rfl, rfl, rfl⟩

/-- C9 (amended): a 200 token response whose JSON-object body lacks
`jwtToken` makes the script's `request_token` return the empty string
(not `None`), so a matching file's upload is still attempted, with
header `Authorization: Bearer ` carrying the empty token;
`request_token` returns `None` — and the upload is thereby skipped —
exactly when the token status is not 200 or the body's `jwtToken` value
is JSON `null` (which `body.get` returns as Python `None`). -/
theorem request_token_missing_field_empty (r : Response) (kvs : List (String × Json))
    (hb : r.body = .obj kvs) :
    (r.status = 200 → kvs.lookup "jwtToken" = none →
        request_token r = .ok (some (.str ""))) ∧
    (request_token r = .ok none ↔
        r.status ≠ 200 ∨ kvs.lookup "jwtToken" = some .null) ∧
    (∀ (cfg : Script) (f : WalkFile), pyEndsWith f.name ".csv.gz" = true →
        r.status = 200 → kvs.lookup "jwtToken" = none →
        process_file cfg f r
          = (.ok (), [script_tokenRequest cfg, script_uploadRequest cfg f (.str "")]) ∧
        (script_uploadRequest cfg f (.str "")).headers = [("Authorization", "Bearer ")]) := by
  refine ⟨?_, ?_, ?_⟩
  · intro hs hl
    simp [request_token, hs, hb, Json.get, hl]
  · constructor
    · intro h
      by_cases hs : r.status = 200
      · refine Or.inr ?_
        cases hv : kvs.lookup "jwtToken" with
        | none => simp [request_token, hs, hb, Json.get, hv] at h
        | some v =>
          cases v <;> simp [request_token, hs, hb, Json.get, hv] at h
          rfl
      · exact Or.inl hs
    · intro h
      rcases h with hs | hv
      · have hsf : (r.status == 200) = false := by simp [hs]
        simp [request_token, hsf]
      · by_cases hs : r.status = 200
        · simp [request_token, hs, hb, Json.get, hv]
        · have hsf : (r.status == 200) = false := by simp [hs]
          simp [request_token, hsf]
  · intro cfg f hm hs hl
    refine ⟨?_, rfl⟩
    simp [process_file, hm, request_token, hs, hb, Json.get, hl]

/-- C9 witness: on a 200 token response lacking `jwtToken`, the token is
the empty string and the upload of `a.csv.gz` is attempted with header
`Authorization: Bearer `. -/
theorem request_token_missing_field_witness :
    request_token noTokR = .ok (some (.str "")) ∧
    process_file scriptEx ⟨"a.csv.gz", "A"⟩ noTokR
      = (.ok (), [script_tokenRequest scriptEx,
          script_uploadRequest scriptEx ⟨"a.csv.gz", "A"⟩ (.str "")]) ∧
    (script_uploadRequest scriptEx ⟨"a.csv.gz", "A"⟩ (.str "")).headers
      = [("Authorization", "Bearer ")] := by
  have h := request_token_missing_field_empty noTokR [("other", .str "x")] rfl
  have h3 := h.2.2 scriptEx ⟨"a.csv.gz", "A"⟩ rfl rfl rfl
  exact ⟨h.1 rfl rfl, h3.1, h3.2⟩
